import Mathlib

/-!
Shallow embedding of `src/RPA/Desktop/Windows.py` (class `Windows`), the
desktop-automation facade of this repository, together with theorems that
settle the frozen claims about it.

Modelling conventions:
* Python strings are Lean `String`; Python's `str.split(sep)` / `str.join`
  and `str.startswith` are re-implemented below (`pySplit`, `pyJoin`,
  `pyStartsWith`) with Python's exact semantics for a non-empty separator.
* An element snapshot (the dictionaries produced by `get_element_attributes`)
  is a partial map `String → Option String`; `none` models an absent key.
* Python exceptions are the `PyError` type; a function that can raise
  returns `Except PyError α`.  An `Except.error` result models a raise at
  the corresponding program point, i.e. before any later backend call.
* Backend mouse clicks (`pywinauto.mouse.click` / `double_click` /
  `right_click`) are reified as `ClickAction` values; the list of actions
  returned by a function is exactly the sequence of backend clicks it
  performed.  `delay(...)` calls and logging are pure no-ops and are
  omitted.  Window operations of `pywinauto` (`Desktop()[title]`, `wait`,
  `minimize`, `restore`) are reified as `BackendAction` where a claim
  needs them and otherwise omitted; they are never mouse clicks.
* Python's `int((right - left) / 2)` (float division then truncation) is
  modelled as exact truncated integer division `Int.tdiv`; this is exact
  for all magnitudes at which the float division itself is exact.
-/

/-- Python exception kinds raised (or caught) by the code under `src/`. -/
inductive PyError where
  | valueError
  | typeError
  | keyError
  | attributeError
  | runtimeError
  | notImplementedError
  deriving DecidableEq, Repr

/-- One backend mouse-click primitive call (`pywinauto.mouse.*`), with the
screen coordinates it was given. -/
inductive ClickAction where
  | click (coords : Int × Int)
  | double (coords : Int × Int)
  | right (coords : Int × Int)
  deriving DecidableEq, Repr

/-- One backend window operation (`pywinauto.Desktop()[title]` lookup /
restore), used to express that an operation performed no backend call. -/
inductive BackendAction where
  | openDialogB (title : String)
  | restoreDialogB (title : String)
  deriving DecidableEq, Repr

/-- Does the character list `s` start with `p`?  Python's
`s.startswith(p)` on the character-list view of strings. -/
def startsWithL : List Char → List Char → Bool
  | [], _ => true
  | _ :: _, [] => false
  | p :: ps, c :: cs => p == c && startsWithL ps cs

/-- Fuel-indexed worker for Python's `str.split(sep)`: scans `rem` left to
right, splitting at every non-overlapping occurrence of `sep`.  Each step
consumes at least one character, so any `fuel ≥ rem.length` yields the
fuel-independent (true) result. -/
def splitL (sep : List Char) : Nat → List Char → List Char → List (List Char)
  | 0, rem, acc => [acc.reverse ++ rem]
  | _ + 1, [], acc => [acc.reverse]
  | fuel + 1, c :: rest, acc =>
    if startsWithL sep (c :: rest) then
      acc.reverse :: splitL sep fuel (List.drop (sep.length - 1) rest) []
    else
      splitL sep fuel rest (c :: acc)

/-- Python's `s.split(sep)` for a non-empty separator. -/
def pySplit (s sep : String) : List String :=
  (splitL sep.data (s.data.length + 1) s.data []).map List.asString

/-- Python's `"".join(parts)`. -/
def pyJoin (parts : List String) : String :=
  parts.foldl (· ++ ·) ""

/-- Python's `s.startswith(p)`. -/
def pyStartsWith (s p : String) : Bool :=
  startsWithL p.data s.data

/-- Embedding of `Windows._determine_search_criteria` (Windows.py:481-507).
Checks the four recognized locator tags in source order; on a match the
value is `"".join(locator.split(tag)[1:])`, otherwise criterion `any` with
the locator unchanged. -/
def determine_search_criteria (locator : String) : String × String :=
  if pyStartsWith locator "name:" then
    ("name", pyJoin ((pySplit locator "name:").drop 1))
  else if pyStartsWith locator "class:" then
    ("class_name", pyJoin ((pySplit locator "class:").drop 1))
  else if pyStartsWith locator "type:" then
    ("control_type", pyJoin ((pySplit locator "type:").drop 1))
  else if pyStartsWith locator "id:" then
    ("automation_id", pyJoin ((pySplit locator "id:").drop 1))
  else
    ("any", locator)

/-- An element snapshot: the string-keyed attribute dictionary built by
`get_element_attributes`; `none` models an absent key. -/
def Element : Type := String → Option String

/-- Worker for `Windows.is_element_matching` (Windows.py:510-528).  The
`fuel` argument models the Python call stack of the self-recursion in the
`any` branch; every recursive call passes a criterion different from
`"any"`, so the recursion depth is exactly one and `fuel = 1` is faithful. -/
def is_element_matching_go (itemdict : Element) (locator : String) :
    Nat → String → Bool
  | fuel, criteria =>
    if criteria ≠ "any" ∧ itemdict criteria = some locator then
      true
    else if criteria = "any" then
      match fuel with
      | 0 => false
      | fuel' + 1 =>
        is_element_matching_go itemdict locator fuel' "name"
          || is_element_matching_go itemdict locator fuel' "class_name"
          || is_element_matching_go itemdict locator fuel' "control_type"
          || is_element_matching_go itemdict locator fuel' "automation_id"
    else
      false

/-- Embedding of `Windows.is_element_matching` (Windows.py:510-528). -/
def is_element_matching (itemdict : Element) (locator criteria : String) : Bool :=
  is_element_matching_go itemdict locator 1 criteria

/-- Embedding of `Windows.find_element` (Windows.py:459-479): scan the
window's element snapshots in order, collecting matches and the
suggestion-locator values (`name` for criterion `any` when present,
otherwise the criterion field when present). -/
def find_element (elements : List Element) (locator search_criteria : String) :
    List Element × List String :=
  (elements.filter (fun e => is_element_matching e locator search_criteria),
   elements.filterMap (fun e =>
     if search_criteria = "any" ∧ (e "name").isSome then
       e "name"
     else if search_criteria ≠ "" ∧ (e search_criteria).isSome then
       e search_criteria
     else
       none))

/-- Longest prefix of consecutive decimal digits, and the remainder
(the greedy `(\d+)` of the rectangle regex). -/
def takeDigits : List Char → List Char × List Char
  | [] => ([], [])
  | c :: rest =>
    if c.isDigit then
      let p := takeDigits rest
      (c :: p.1, p.2)
    else
      ([], c :: rest)

/-- Numeric value of a digit string. -/
def digitsToNat (ds : List Char) : Nat :=
  ds.foldl (fun n c => n * 10 + (c.toNat - 48)) 0

/-- Consume the literal `lit` from the front of `s`, returning the
remainder, or `none` when `s` does not start with `lit`. -/
def expectLit : List Char → List Char → Option (List Char)
  | [], rem => some rem
  | _ :: _, [] => none
  | l :: ls, c :: rest => if l == c then expectLit ls rest else none

/-- Embedding of `Windows.get_element_coordinates` (Windows.py:614-623):
`re.match(r"\(L(\d+).*T(\d+).*R(\d+).*B(\d+)\)", rectangle)` followed by
`int` conversion of the four groups.  The model covers the canonical
rectangle text `(L#, T#, R#, B#)` produced by pywinauto, on which the
regex's `.*` gaps are exactly the literal `", T"`/`", R"`/`", B"`
separators; a non-matching string yields `none` (in Python: `re.match`
returns `None` and `.groups()` raises `AttributeError`). -/
def get_element_coordinates (rectangle : String) : Option (Int × Int × Int × Int) :=
  match expectLit "(L".data rectangle.data with
  | none => none
  | some r0 =>
    let p1 := takeDigits r0
    if p1.1 = [] then none else
    match expectLit ", T".data p1.2 with
    | none => none
    | some r1 =>
      let p2 := takeDigits r1
      if p2.1 = [] then none else
      match expectLit ", R".data p2.2 with
      | none => none
      | some r2 =>
        let p3 := takeDigits r2
        if p3.1 = [] then none else
        match expectLit ", B".data p3.2 with
        | none => none
        | some r3 =>
          let p4 := takeDigits r3
          if p4.1 = [] then none else
          match expectLit ")".data p4.2 with
          | none => none
          | some _ =>
            some ((digitsToNat p1.1 : Int), (digitsToNat p2.1 : Int),
                  (digitsToNat p3.1 : Int), (digitsToNat p4.1 : Int))

/-- Embedding of `Windows.get_element_center` (Windows.py:543-554):
reads `itemdict["rectangle"]` (raising `KeyError` when absent), parses it
(a parse failure raises `AttributeError`), and returns
`(int((right-left)/2) + left, int((bottom-top)/2) + top)`; Python's `int`
truncates toward zero, i.e. `Int.tdiv`. -/
def get_element_center (itemdict : Element) : Except PyError (Int × Int) :=
  match itemdict "rectangle" with
  | none => .error .keyError
  | some rect =>
    match get_element_coordinates rect with
    | none => .error .attributeError
    | some (left, top, right, bottom) =>
      .ok (Int.tdiv (right - left) 2 + left, Int.tdiv (bottom - top) 2 + top)

/-- Evaluation of the guard of `Windows.click_type` (Windows.py:567),
`(x is None and y is None) or (x < 0 or y < 0)`, with Python's
short-circuiting; comparing `None` with `0` raises `TypeError`. -/
def pyGuard (x y : Option Int) : Except PyError Bool :=
  if x = none ∧ y = none then
    .ok true
  else
    match x with
    | none => .error .typeError
    | some xv =>
      if xv < 0 then
        .ok true
      else
        match y with
        | none => .error .typeError
        | some yv => .ok (decide (yv < 0))

/-- Embedding of `Windows.click_type` (Windows.py:556-574): evaluate the
guard (raising `TypeError` on a `None`-vs-`0` comparison), raise
`ValueError` when the guard is true, otherwise dispatch on the click-type
string; an unrecognized click type performs no backend call.  The
`| _, _ => .ok []` arm is unreachable: a false guard forces both
coordinates to be non-`None`. -/
def click_type (x y : Option Int) (ctype : String) : Except PyError (List ClickAction) :=
  match pyGuard x y with
  | .error e => .error e
  | .ok true => .error .valueError
  | .ok false =>
    match x, y with
    | some xv, some yv =>
      if ctype = "click" then .ok [.click (xv, yv)]
      else if ctype = "double" then .ok [.double (xv, yv)]
      else if ctype = "right" then .ok [.right (xv, yv)]
      else .ok []
    | _, _ => .ok []

/-- Embedding of `Windows.mouse_click_coords` (Windows.py:383-391):
delegates to `click_type` and then a fixed delay (a no-op here). -/
def mouse_click_coords (x y : Option Int) (ctype : String) :
    Except PyError (List ClickAction) :=
  click_type x y ctype

/-- The backend clicks `click_type` performs for a click-type string at
given non-negative coordinates (one click for the three recognized types,
none otherwise). -/
def clicksOf (ctype : String) (x y : Int) : List ClickAction :=
  if ctype = "click" then [.click (x, y)]
  else if ctype = "double" then [.double (x, y)]
  else if ctype = "right" then [.right (x, y)]
  else []

/-- Embedding of `Windows.mouse_click_locator` (Windows.py:393-446) for a
window whose element snapshots are `elements`.  The leading
`dlg.wait(...)` / `open_dialog(...)` window calls are backend window
operations (never mouse clicks) and are omitted; then the locator is
parsed, elements are matched, and the 0/1/many branch decides the
outcome.  The result pairs the returned boolean with the backend clicks
performed (Python falls off the `if` chain to `return False` in the 0 and
many cases, performing no click and raising nothing). -/
def mouse_click_locator (elements : List Element) (locator : String)
    (off_x off_y : Int) (ctype : String) :
    Except PyError (Bool × List ClickAction) :=
  let sc := determine_search_criteria locator
  let found := find_element elements sc.2 sc.1
  match found.1 with
  | [] => .ok (false, [])
  | [element] =>
    (match get_element_center element with
     | .error e => .error e
     | .ok c =>
       match click_type (some (c.1 + off_x)) (some (c.2 + off_y)) ctype with
       | .error e => .error e
       | .ok clicks => .ok (true, clicks))
  | _ :: _ :: _ => .ok (false, [])

/-- Embedding of `Windows.__del__` (Windows.py:56-61): given the outcome
of `clipboard.clear_clipboard()`, the handler catches (and logs) exactly
`RuntimeError`; any other exception propagates out of the destructor. -/
def del_teardown (clearResult : Except PyError Unit) : Except PyError Unit :=
  match clearResult with
  | .ok () => .ok ()
  | .error .runtimeError => .ok ()
  | .error e => .error e

/-- Optional extra parameters merged into a new session record by
`_add_app_instance` (`{**default_params, **params}`); a `none` field
models an absent dictionary key.  Python's `if params:` treats an absent
or empty dictionary as falsy, which `Option AppParams = none` models. -/
structure AppParams where
  dispatched : Option Bool := none
  windowtitle : Option String := none
  executable : Option String := none
  deriving DecidableEq, Repr

/-- One session record of the application registry `self._apps`.  The
`app` field is the backend application handle (`none` models Python
`None`); the handle itself carries no information relevant to the claims
and is modelled as `Unit`.  The `dlg` entry stored by `open_dialog` is
not needed by any claim and is omitted. -/
structure AppRecord where
  app : Option Unit
  id : Nat
  dispatched : Bool
  windowtitle : Option String := none
  executable : Option String := none
  deriving DecidableEq, Repr

/-- The mutable state of a `Windows` object: the registry `self._apps`
(a partial map from instance id), the id counter `self._app_instance_id`,
the active pointer `self._active_app_instance` (`-1` is the none
sentinel), and the `self.app` / `self.windowtitle` convenience fields. -/
structure WinState where
  apps : Nat → Option AppRecord
  counter : Nat
  active : Int
  app : Option Unit
  windowtitle : Option String

/-- The state set up by `Windows.__init__` (Windows.py:43-54). -/
def initState : WinState :=
  { apps := fun _ => none, counter := 0, active := -1, app := none, windowtitle := none }

/-- Effect of `Windows.open_dialog` (Windows.py:237-254) on the modelled
state: update `self.windowtitle`, look up the desktop window (a backend
call), store the dialog in the active record (the `dlg` entry is not
modelled), and — when the active record's `app` handle is `None` —
connect by handle, which sets both `self.app` and the record's handle. -/
def open_dialog_effect (st : WinState) (windowtitle : Option String) : WinState :=
  let wt := match windowtitle with
    | some t => some t
    | none => st.windowtitle
  let st1 := { st with windowtitle := wt }
  match st1.apps st1.active.toNat with
  | some r =>
    if r.app = none then
      { st1 with
        app := some (),
        apps := fun k => if k = st1.active.toNat then some { r with app := some () } else st1.apps k }
    else
      st1
  | none => st1

/-- Embedding of `Windows._add_app_instance` (Windows.py:64-83):
increment the id counter, resolve the handle (`self.app` when the `app`
argument is `None`, otherwise store it into `self.app`), build the record
by merging `params` over the defaults, register it, mark it active, and
when `dialog` is true run `open_dialog` on the record's window title.
Returns the new active instance id together with the new state. -/
def add_app_instance (st : WinState) (app : Option Unit) (dialog : Bool)
    (params : Option AppParams) : Nat × WinState :=
  let newId := st.counter + 1
  let appVal := match app with
    | none => st.app
    | some a => some a
  let record : AppRecord :=
    match params with
    | none =>
      { app := appVal, id := newId, dispatched := false }
    | some p =>
      { app := appVal, id := newId,
        dispatched := p.dispatched.getD false,
        windowtitle := p.windowtitle,
        executable := p.executable }
  let st1 : WinState :=
    { st with
      counter := newId,
      app := appVal,
      apps := fun k => if k = newId then some record else st.apps k,
      active := (newId : Int) }
  let st2 := if dialog then open_dialog_effect st1 record.windowtitle else st1
  (newId, st2)

/-- Body of `switch_to_application` after a successful registry lookup:
move the active pointer and `self.app`, then open (whose
`app["windowtitle"]` argument lookup raises `KeyError` when the record
has no window title — after the pointer was already moved) and restore
the dialog. -/
def switch_connect (st : WinState) (app_id : Nat) (r : AppRecord) :
    Except PyError Unit × List BackendAction × WinState :=
  let st1 := { st with active := (app_id : Int), app := r.app }
  match r.windowtitle with
  | none => (.error .keyError, [], st1)
  | some t =>
    let st2 := open_dialog_effect st1 (some t)
    (.ok (), [.openDialogB t, .restoreDialogB t], st2)

/-- Embedding of `Windows.switch_to_application` (Windows.py:85-99).  For
a registered (and truthy) id the lookup succeeds and `switch_connect`
runs; otherwise raise `ValueError` without touching the state or the
backend.  Returns the outcome, the backend window operations performed,
and the resulting state. -/
def switch_to_application (st : WinState) (app_id : Nat) :
    Except PyError Unit × List BackendAction × WinState :=
  if app_id ≠ 0 ∧ (st.apps app_id).isSome = true then
    match st.apps app_id with
    | some r => switch_connect st app_id r
    | none => (.error .keyError, [], st)
  else
    (.error .valueError, [], st)

/-- Embedding of `Windows.get_app` (Windows.py:101-112): with no id and an
active session, return the active record; otherwise index the registry
with the given id (`self._apps[app_id]`), raising `KeyError` when absent
(also in the `app_id is None and active == -1` case, where Python indexes
with `None`). -/
def get_app (st : WinState) : Option Nat → Except PyError AppRecord
  | none =>
    if st.active ≠ -1 then
      match st.apps st.active.toNat with
      | some r => .ok r
      | none => .error .keyError
    else
      .error .keyError
  | some i =>
    match st.apps i with
    | some r => .ok r
    | none => .error .keyError

/-- Which backend terminate primitive `quit` invoked: the COM
`app.Quit()` path or the process `app.kill()` path. -/
inductive QuitAction where
  | comQuit
  | kill
  deriving DecidableEq, Repr

/-- Body of `quit` after a successful registry lookup: invoke
`app["app"].Quit()` when `dispatched` else `app["app"].kill()` (either
attribute access raises `AttributeError` when the stored handle is
`None`), then clear the record's handle (at key `app["id"]`) and reset
the active pointer to the `-1` sentinel. -/
def quit_finish (st : WinState) (r : AppRecord) : Except PyError (QuitAction × WinState) :=
  match r.app with
  | none => .error .attributeError
  | some _ =>
    .ok (if r.dispatched then QuitAction.comQuit else QuitAction.kill,
      { st with
        apps := fun k => if k = r.id then some { r with app := none } else st.apps k,
        active := -1 })

/-- Embedding of `Windows.quit` (Windows.py:286-300), dispatching on the
registry lookup. -/
def quit (st : WinState) (app_id : Option Nat) : Except PyError (QuitAction × WinState) :=
  match get_app st app_id with
  | .error e => .error e
  | .ok r => quit_finish st r

/-- One lifecycle operation on the registry state, used to quantify over
the reachable states of a `Windows` object. -/
inductive Op where
  | register (app : Option Unit) (dialog : Bool) (params : Option AppParams)
  | switchTo (app_id : Nat)
  | quitOp (app_id : Option Nat)

/-- The state after a `quit` call: the new state on success, the
unchanged state when `quit` raised (it raises before any mutation). -/
def quit_state (st : WinState) (app_id : Option Nat) : WinState :=
  match quit st app_id with
  | .ok pr => pr.2
  | .error _ => st

/-- State transition of one lifecycle operation; an operation that raises
leaves the state as the partially-mutated state the raise left behind
(for `switch_to_application`) or unchanged (for `quit`). -/
def step (st : WinState) : Op → WinState
  | .register a d p => (add_app_instance st a d p).2
  | .switchTo i => (switch_to_application st i).2.2
  | .quitOp i => quit_state st i

/-- The state of a `Windows` object after a sequence of lifecycle
operations from a fresh `__init__`. -/
def run (ops : List Op) : WinState :=
  ops.foldl step initState

/-- Registry invariant: every registered id is positive and bounded by
the id counter, the active pointer is the `-1` sentinel or a registered
id, and every record stores its own registry key as its `id` field. -/
def RegInv (st : WinState) : Prop :=
  (∀ k, st.apps k = none ∨ (0 < k ∧ k ≤ st.counter))
  ∧ (st.active = -1 ∨ (0 ≤ st.active ∧ (st.apps st.active.toNat).isSome = true))
  ∧ (∀ k r, st.apps k = some r → r.id = k)

/-- Helper: `click_type` with two in-range coordinates raises nothing and
performs the clicks described by `clicksOf`. -/
lemma click_type_nonneg (x y : Int) (ct : String) (hx : 0 ≤ x) (hy : 0 ≤ y) :
    click_type (some x) (some y) ct = Except.ok (clicksOf ct x y) := by
  have hdy : decide (y < 0) = false := decide_eq_false (not_lt.mpr hy)
  simp [click_type, pyGuard, not_lt.mpr hx, hdy, clicksOf]
  split_ifs <;> rfl

/-- Helper: `click_type` with two coordinates, at least one negative,
raises `ValueError` before any backend click. -/
lemma click_type_negative (x y : Int) (ct : String) (h : x < 0 ∨ y < 0) :
    click_type (some x) (some y) ct = Except.error PyError.valueError := by
  rcases lt_or_ge x 0 with hx | hx
  · simp [click_type, pyGuard, hx]
  · have hy : y < 0 := h.resolve_left (not_lt.mpr hx)
    simp [click_type, pyGuard, not_lt.mpr hx, hy]

/-- Helper: for a criterion other than `"any"` (at any fuel), matching is
exact string equality against that one snapshot field. -/
lemma is_element_matching_go_single (d : Element) (l : String) (fuel : Nat)
    (c : String) (hc : c ≠ "any") :
    is_element_matching_go d l fuel c = true ↔ d c = some l := by
  unfold is_element_matching_go
  by_cases hd : d c = some l
  · simp [hc, hd]
  · simp [hc, hd]

/-- Helper: unfolding of the `any` branch of `is_element_matching` into
the four field checks. -/
lemma is_element_matching_any (d : Element) (l : String) :
    is_element_matching d l "any"
      = (is_element_matching_go d l 0 "name"
          || is_element_matching_go d l 0 "class_name"
          || is_element_matching_go d l 0 "control_type"
          || is_element_matching_go d l 0 "automation_id") := rfl

/-- Example element snapshot used as a concrete input: a button named
`ok` with the canonical rectangle text. -/
def eEx : Element := fun s =>
  if s = "name" then some "ok"
  else if s = "rectangle" then some "(L10, T20, R110, B220)"
  else none

/-- Example element snapshot whose rectangle has `right < left`. -/
def eNeg : Element := fun s =>
  if s = "rectangle" then some "(L10, T0, R5, B0)" else none

/-- Claim C6 (confirmed): matching under the `any` criterion succeeds iff
the locator value equals at least one of the snapshot's `name`,
`class_name`, `control_type` or `automation_id` fields; under a specific
criterion it succeeds iff the locator value equals exactly that field. -/
theorem is_element_matching_spec (d : Element) (l : String) :
    (is_element_matching d l "any" = true ↔
      (d "name" = some l ∨ d "class_name" = some l ∨ d "control_type" = some l
        ∨ d "automation_id" = some l))
    ∧ ∀ c : String, c ≠ "any" → (is_element_matching d l c = true ↔ d c = some l) := by
  refine ⟨?_, fun c hc => is_element_matching_go_single d l 1 c hc⟩
  rw [is_element_matching_any]
  simp only [Bool.or_eq_true]
  rw [is_element_matching_go_single d l 0 "name" (by decide),
      is_element_matching_go_single d l 0 "class_name" (by decide),
      is_element_matching_go_single d l 0 "control_type" (by decide),
      is_element_matching_go_single d l 0 "automation_id" (by decide)]
  tauto

/-- Witness for C6 at a concrete snapshot, discharging the
`c ≠ "any"` hypothesis at `c = "class_name"`. -/
theorem is_element_matching_spec_witness :
    is_element_matching eEx "ok" "class_name" = true ↔ eEx "class_name" = some "ok" :=
  (is_element_matching_spec eEx "ok").2 "class_name" (by decide)

/-- Claim C7 (confirmed): a coordinate click with a negative coordinate
raises `ValueError` (the spec's InvalidArgument) before any backend mouse
primitive; with non-negative coordinates it dispatches exactly one
left/double/right click according to the click type. -/
theorem mouse_click_coords_spec :
    (∀ (x y : Int) (ct : String), x < 0 ∨ y < 0 →
        mouse_click_coords (some x) (some y) ct = Except.error PyError.valueError)
    ∧ (∀ x y : Int, 0 ≤ x → 0 ≤ y →
        mouse_click_coords (some x) (some y) "click" = Except.ok [ClickAction.click (x, y)]
        ∧ mouse_click_coords (some x) (some y) "double" = Except.ok [ClickAction.double (x, y)]
        ∧ mouse_click_coords (some x) (some y) "right" = Except.ok [ClickAction.right (x, y)]) := by
  refine ⟨fun x y ct h => click_type_negative x y ct h, fun x y hx hy => ?_⟩
  refine ⟨?_, ?_, ?_⟩ <;>
    simp [mouse_click_coords, click_type_nonneg _ _ _ hx hy, clicksOf]

/-- Witness for C7: a negative-x click raises, a concrete in-range double
click dispatches exactly that click. -/
theorem mouse_click_coords_spec_witness :
    mouse_click_coords (some (-1)) (some 5) "click" = Except.error PyError.valueError
    ∧ mouse_click_coords (some 3) (some 4) "double" = Except.ok [ClickAction.double (3, 4)] :=
  ⟨mouse_click_coords_spec.1 (-1) 5 "click" (Or.inl (by decide)),
   (mouse_click_coords_spec.2 3 4 (by decide) (by decide)).2.1⟩

/-- Claim C8 counterexample: on the well-formed rectangle text
`(L10, T0, R5, B0)` (of the literal `(L#, T#, R#, B#)` form) the code's
center x is `10 + int(-5/2) = 8` (truncation toward zero) while the
claim's `left + floor((right-left)/2)` is `7`. -/
theorem get_element_center_truncation_not_floor :
    get_element_center eNeg = Except.ok (8, 0)
    ∧ (8 : Int) ≠ 10 + Int.fdiv (5 - 10) 2 :=
  ⟨rfl, by decide⟩

/-- Claim C8 (corrected): the literal rectangle text parses to
`(10, 20, 110, 220)` with center `(60, 120)`; in general the center is
`(left + trunc((right-left)/2), top + trunc((bottom-top)/2))` with
truncation toward zero (Python `int()`), which agrees with the claimed
floor form whenever `left ≤ right` and `top ≤ bottom`. -/
theorem get_element_center_formula :
    get_element_coordinates "(L10, T20, R110, B220)" = some (10, 20, 110, 220)
    ∧ (∀ e : Element, e "rectangle" = some "(L10, T20, R110, B220)" →
        get_element_center e = Except.ok (60, 120))
    ∧ (∀ (e : Element) (s : String) (l t r b : Int),
        e "rectangle" = some s → get_element_coordinates s = some (l, t, r, b) →
        get_element_center e = Except.ok (l + Int.tdiv (r - l) 2, t + Int.tdiv (b - t) 2)
        ∧ (l ≤ r → t ≤ b →
            l + Int.tdiv (r - l) 2 = l + Int.fdiv (r - l) 2
            ∧ t + Int.tdiv (b - t) 2 = t + Int.fdiv (b - t) 2)) := by
  refine ⟨by decide, fun e he => ?_, fun e s l t r b he hs => ⟨?_, fun hlr htb => ?_⟩⟩
  · simp only [get_element_center, he]
    rfl
  · simp only [get_element_center, he, hs]
    rw [Int.add_comm (Int.tdiv (r - l) 2) l, Int.add_comm (Int.tdiv (b - t) 2) t]
  · rw [Int.fdiv_eq_tdiv (by omega) (by norm_num),
        Int.fdiv_eq_tdiv (by omega) (by norm_num)]
    exact ⟨rfl, rfl⟩

/-- Witness for C8 at the concrete example element. -/
theorem get_element_center_formula_witness :
    get_element_center eEx = Except.ok (60, 120) :=
  get_element_center_formula.2.1 eEx rfl

/-- Claim C9 counterexample: a `ValueError` raised by the clipboard clear
is not caught by the teardown handler (which catches only
`RuntimeError`) — it propagates to the caller. -/
theorem del_teardown_reraises_value_error :
    del_teardown (Except.error PyError.valueError) = Except.error PyError.valueError
    ∧ (Except.error PyError.valueError : Except PyError Unit) ≠ Except.ok () :=
  ⟨rfl, by simp⟩

/-- Claim C9 (corrected): the teardown handler swallows (and logs)
exactly `RuntimeError` from the clipboard clear; every other exception
kind is re-raised to the caller. -/
theorem del_teardown_spec :
    del_teardown (Except.ok ()) = Except.ok ()
    ∧ del_teardown (Except.error PyError.runtimeError) = Except.ok ()
    ∧ ∀ e : PyError, e ≠ PyError.runtimeError →
        del_teardown (Except.error e) = Except.error e := by
  refine ⟨rfl, rfl, fun e he => ?_⟩
  cases e <;> first | rfl | exact absurd rfl he

/-- Witness for C9 at `TypeError`, discharging the
`e ≠ RuntimeError` hypothesis. -/
theorem del_teardown_spec_witness :
    del_teardown (Except.error PyError.typeError) = Except.error PyError.typeError :=
  del_teardown_spec.2.2 PyError.typeError (by decide)

/-- Claim C10 counterexample: with exactly one `None` coordinate
(`x = -1`, `y = None`) the guard short-circuits on `x < 0` and raises
`ValueError`, not the `TypeError` the claim asserts for every
one-`None` call. -/
theorem click_type_negative_x_none_y_value_error :
    click_type (some (-1)) none "click" = Except.error PyError.valueError
    ∧ PyError.valueError ≠ PyError.typeError :=
  ⟨rfl, by decide⟩

/-- Claim C10 (corrected): `x = None, y ≠ None` raises `TypeError`;
`x ≥ 0, y = None` raises `TypeError`; the `ValueError` branch is reached
when both are `None`, when both are numbers with one negative, and also
when `x < 0` with `y = None` (the short-circuit case the claim missed). -/
theorem click_type_mixed_none_spec :
    (∀ (y : Int) (ct : String), click_type none (some y) ct = Except.error PyError.typeError)
    ∧ (∀ (x : Int) (ct : String), 0 ≤ x →
        click_type (some x) none ct = Except.error PyError.typeError)
    ∧ (∀ ct : String, click_type none none ct = Except.error PyError.valueError)
    ∧ (∀ (x y : Int) (ct : String), x < 0 ∨ y < 0 →
        click_type (some x) (some y) ct = Except.error PyError.valueError)
    ∧ (∀ (x : Int) (ct : String), x < 0 →
        click_type (some x) none ct = Except.error PyError.valueError) := by
  refine ⟨fun y ct => ?_, fun x ct hx => ?_, fun ct => ?_,
    fun x y ct h => click_type_negative x y ct h, fun x ct hx => ?_⟩
  · simp [click_type, pyGuard]
  · simp [click_type, pyGuard, not_lt.mpr hx]
  · simp [click_type, pyGuard]
  · simp [click_type, pyGuard, hx]

/-- Witness for C10, discharging the sign hypotheses at concrete
coordinates. -/
theorem click_type_mixed_none_spec_witness :
    click_type none (some 5) "click" = Except.error PyError.typeError
    ∧ click_type (some 7) none "double" = Except.error PyError.typeError :=
  ⟨click_type_mixed_none_spec.1 5 "click",
   click_type_mixed_none_spec.2.1 7 "double" (by decide)⟩

/-- Claim C4 (confirmed): switching to an id that is not registered
raises `ValueError` (the spec's NotFound kind for an unknown session id),
performs no backend window operation, and leaves the whole state — in
particular the active pointer — unchanged. -/
theorem switch_to_application_unknown_id (st : WinState) (i : Nat)
    (h : st.apps i = none) :
    switch_to_application st i = (Except.error PyError.valueError, ([], st)) := by
  simp [switch_to_application, h]

/-- Witness for C4: switching to id 5 on a fresh state. -/
theorem switch_to_application_unknown_id_witness :
    switch_to_application initState 5 = (Except.error PyError.valueError, ([], initState)) :=
  switch_to_application_unknown_id initState 5 rfl

/-- The separator `sep` occurs nowhere in the character list (scanning
every suffix, as Python's `str.split` does). -/
def noOccurL (sep : List Char) : List Char → Bool
  | [] => true
  | c :: rest => !startsWithL sep (c :: rest) && noOccurL sep rest

/-- A list starts with itself followed by anything. -/
lemma startsWithL_append_self (p xs : List Char) : startsWithL p (p ++ xs) = true := by
  induction p with
  | nil => rfl
  | cons c cs ih => simp [startsWithL, ih]

/-- With enough fuel, scanning a list free of the separator yields a
single segment. -/
lemma splitL_no_occurrence (sep : List Char) :
    ∀ (rem : List Char) (fuel : Nat) (acc : List Char),
      rem.length ≤ fuel → noOccurL sep rem = true →
      splitL sep fuel rem acc = [acc.reverse ++ rem] := by
  intro rem
  induction rem with
  | nil =>
    intro fuel acc _ _
    cases fuel <;> simp [splitL]
  | cons c rest ih =>
    intro fuel acc hf hno
    cases fuel with
    | zero => simp at hf
    | succ fuel' =>
      simp only [noOccurL, Bool.and_eq_true, Bool.not_eq_true'] at hno
      simp only [splitL, hno.1, Bool.false_eq_true, if_false]
      rw [ih fuel' (c :: acc) (by simpa using hf) hno.2]
      simp

/-- One scanning step at an occurrence of the separator: the accumulated
segment is emitted and the separator is consumed. -/
lemma splitL_self_cons (sep xs acc : List Char) (fuel : Nat) (hsep : sep ≠ []) :
    splitL sep (fuel + 1) (sep ++ xs) acc = acc.reverse :: splitL sep fuel xs [] := by
  obtain ⟨c, cs, rfl⟩ : ∃ c cs, sep = c :: cs := by
    cases sep with
    | nil => exact absurd rfl hsep
    | cons c cs => exact ⟨c, cs, rfl⟩
  have hsw : startsWithL (c :: cs) (c :: (cs ++ xs)) = true := by
    simpa [List.cons_append] using startsWithL_append_self (c :: cs) xs
  simp only [List.cons_append, splitL, hsw]
  simp [List.drop_left]
  exact fun hcontra => Bool.noConfusion (hsw.symm.trans hcontra)

/-- Python's `(tag + rest).split(tag)` is `["", rest]` when the tag does
not occur in the remainder. -/
lemma pySplit_tag (tag rest : String) (hsep : tag.data ≠ [])
    (hno : noOccurL tag.data rest.data = true) :
    pySplit (tag ++ rest) tag = ["", rest] := by
  unfold pySplit
  rw [String.data_append]
  rw [splitL_self_cons tag.data rest.data [] ((tag.data ++ rest.data).length) hsep]
  rw [splitL_no_occurrence tag.data rest.data ((tag.data ++ rest.data).length) []
    (by simp) hno]
  simp [List.asString]

/-- A string starting with `tag` satisfies the `startswith` check. -/
lemma pyStartsWith_append (tag rest : String) :
    pyStartsWith (tag ++ rest) tag = true := by
  unfold pyStartsWith
  rw [String.data_append]
  exact startsWithL_append_self _ _

/-- A `startswith` check fails when the two head characters differ. -/
lemma pyStartsWith_append_ne (t u rest : String) (c d : Char) (cs ds : List Char)
    (ht : t.data = c :: cs) (hu : u.data = d :: ds) (h : (d == c) = false) :
    pyStartsWith (t ++ rest) u = false := by
  unfold pyStartsWith
  rw [String.data_append, ht, hu, List.cons_append]
  simp [startsWithL, h]

/-- Claim C2 counterexample: the code's value for `name:name:foo` is
`foo` — the split-and-join removes every occurrence of the tag — whereas
stripping exactly the prefix once (everything after the first tag) would
give `name:foo`. -/
theorem determine_search_criteria_strips_all_tags :
    determine_search_criteria "name:name:foo" = ("name", "foo")
    ∧ ("foo" : String) ≠ "name:foo" :=
  ⟨by decide, by decide⟩

/-- Claim C2 (corrected): a recognized prefix yields the corresponding
criterion, and the value is the prefix-stripped remainder provided the
tag occurs nowhere in that remainder (in general the split-and-join
deletes every occurrence of the tag, not just the leading one); a string
with no recognized prefix yields criterion `any` unchanged. -/
theorem determine_search_criteria_spec :
    (∀ rest : String, noOccurL "name:".data rest.data = true →
        determine_search_criteria ("name:" ++ rest) = ("name", rest))
    ∧ (∀ rest : String, noOccurL "class:".data rest.data = true →
        determine_search_criteria ("class:" ++ rest) = ("class_name", rest))
    ∧ (∀ rest : String, noOccurL "type:".data rest.data = true →
        determine_search_criteria ("type:" ++ rest) = ("control_type", rest))
    ∧ (∀ rest : String, noOccurL "id:".data rest.data = true →
        determine_search_criteria ("id:" ++ rest) = ("automation_id", rest))
    ∧ (∀ s : String,
        pyStartsWith s "name:" = false → pyStartsWith s "class:" = false →
        pyStartsWith s "type:" = false → pyStartsWith s "id:" = false →
        determine_search_criteria s = ("any", s)) := by
  refine ⟨fun rest hno => ?_, fun rest hno => ?_, fun rest hno => ?_, fun rest hno => ?_,
    fun s h1 h2 h3 h4 => ?_⟩
  · rw [determine_search_criteria, pyStartsWith_append "name:" rest]
    rw [if_pos rfl, pySplit_tag "name:" rest (by decide) hno]
    simp [pyJoin]
  · rw [determine_search_criteria,
      pyStartsWith_append_ne "class:" "name:" rest 'c' 'n' _ _ rfl rfl (by decide),
      pyStartsWith_append "class:" rest]
    rw [if_neg (by simp), if_pos rfl, pySplit_tag "class:" rest (by decide) hno]
    simp [pyJoin]
  · rw [determine_search_criteria,
      pyStartsWith_append_ne "type:" "name:" rest 't' 'n' _ _ rfl rfl (by decide),
      pyStartsWith_append_ne "type:" "class:" rest 't' 'c' _ _ rfl rfl (by decide),
      pyStartsWith_append "type:" rest]
    rw [if_neg (by simp), if_neg (by simp), if_pos rfl,
      pySplit_tag "type:" rest (by decide) hno]
    simp [pyJoin]
  · rw [determine_search_criteria,
      pyStartsWith_append_ne "id:" "name:" rest 'i' 'n' _ _ rfl rfl (by decide),
      pyStartsWith_append_ne "id:" "class:" rest 'i' 'c' _ _ rfl rfl (by decide),
      pyStartsWith_append_ne "id:" "type:" rest 'i' 't' _ _ rfl rfl (by decide),
      pyStartsWith_append "id:" rest]
    rw [if_neg (by simp), if_neg (by simp), if_neg (by simp), if_pos rfl,
      pySplit_tag "id:" rest (by decide) hno]
    simp [pyJoin]
  · rw [determine_search_criteria, h1, h2, h3, h4]
    simp

/-- Witness for C2: a tag-free remainder is stripped exactly once, and an
unrecognized locator passes through unchanged. -/
theorem determine_search_criteria_spec_witness :
    determine_search_criteria ("name:" ++ "Apply") = ("name", "Apply")
    ∧ determine_search_criteria "plain" = ("any", "plain") :=
  ⟨determine_search_criteria_spec.1 "Apply" (by decide),
   determine_search_criteria_spec.2.2.2.2 "plain" (by decide) (by decide) (by decide)
     (by decide)⟩

/-- Claim C1 counterexample: with exactly one matching element (center
`(60, 120)`) and offset `off_x = -100`, the adjusted x-coordinate `-40`
is negative, so `click_type` raises `ValueError` — the call performs no
click and returns no boolean, instead of clicking and returning True. -/
theorem mouse_click_locator_negative_offset_raises :
    (find_element [eEx] "ok" "any").1.length = 1
    ∧ determine_search_criteria "ok" = ("any", "ok")
    ∧ mouse_click_locator [eEx] "ok" (-100) 0 "click" = Except.error PyError.valueError :=
  ⟨rfl, by decide, rfl⟩

/-- Claim C1 (corrected): with exactly one matching element whose
rectangle parses and whose offset-adjusted center is non-negative, the
locator click performs exactly the `clicksOf` dispatch at the adjusted
center (one click for the three recognized click types) and returns
True; with zero or with two or more matching elements it performs no
click, raises nothing, and returns False. -/
theorem mouse_click_locator_branches (es : List Element) (loc : String)
    (off_x off_y : Int) (ct : String) (e : Element) (x y : Int) :
    ((find_element es (determine_search_criteria loc).2 (determine_search_criteria loc).1).1
        = [e] →
      get_element_center e = Except.ok (x, y) →
      0 ≤ x + off_x → 0 ≤ y + off_y →
      mouse_click_locator es loc off_x off_y ct
        = Except.ok (true, clicksOf ct (x + off_x) (y + off_y))
      ∧ (ct = "click" ∨ ct = "double" ∨ ct = "right" →
          (clicksOf ct (x + off_x) (y + off_y)).length = 1))
    ∧ ((find_element es (determine_search_criteria loc).2 (determine_search_criteria loc).1).1
        = [] →
        mouse_click_locator es loc off_x off_y ct = Except.ok (false, []))
    ∧ (∀ (e1 e2 : Element) (rest : List Element),
        (find_element es (determine_search_criteria loc).2 (determine_search_criteria loc).1).1
          = e1 :: e2 :: rest →
        mouse_click_locator es loc off_x off_y ct = Except.ok (false, [])) := by
  refine ⟨fun hfind hcenter hx hy => ⟨?_, ?_⟩, fun hfind => ?_, fun e1 e2 rest hfind => ?_⟩
  · simp only [mouse_click_locator, hfind, hcenter, click_type_nonneg _ _ ct hx hy]
  · rintro (rfl | rfl | rfl) <;> rfl
  · simp only [mouse_click_locator, hfind]
  · simp only [mouse_click_locator, hfind]

/-- Witness for C1 at a one-element window with zero offsets. -/
theorem mouse_click_locator_branches_witness :
    mouse_click_locator [eEx] "ok" 0 0 "click" = Except.ok (true, [ClickAction.click (60, 120)])
    ∧ (clicksOf "click" 60 120).length = 1 := by
  have h := (mouse_click_locator_branches [eEx] "ok" 0 0 "click" eEx 60 120).1 rfl rfl
    (by decide) (by decide)
  exact ⟨by simpa [clicksOf] using h.1, by decide⟩

/-- Concrete registry state holding one registered session whose stored
handle has already been cleared (`app = None`). -/
def stNoHandle : WinState :=
  { apps := fun k => if k = 1 then some { app := none, id := 1, dispatched := false } else none,
    counter := 1, active := 1, app := none, windowtitle := none }

/-- Claim C3 counterexample: id 1 is a registered (non-dispatched)
session, but its handle is `None`, so `quit` raises `AttributeError` on
`app["app"].kill()` instead of invoking the kill path, clearing the
handle and resetting the active pointer. -/
theorem quit_none_handle_raises :
    (stNoHandle.apps 1).isSome = true
    ∧ quit stNoHandle (some 1) = Except.error PyError.attributeError :=
  ⟨rfl, rfl⟩

/-- Claim C3 (corrected): for every registered session id whose stored
handle is non-null — active or not — `quit` invokes the COM `Quit()`
path when the dispatched flag is set and the `kill()` path otherwise,
then clears that session's handle and resets the registry-wide active
pointer to the `-1` sentinel. -/
theorem quit_spec (st : WinState) (i : Nat) (r : AppRecord)
    (h : st.apps i = some r) (hid : r.id = i) (happ : r.app = some ()) :
    quit st (some i)
      = Except.ok
          ((if r.dispatched then QuitAction.comQuit else QuitAction.kill),
           { st with
             apps := fun k => if k = i then some { r with app := none } else st.apps k,
             active := -1 }) := by
  simp [quit, quit_finish, get_app, h, happ, hid]

/-- Concrete registry state with one live dispatched session. -/
def stLive : WinState :=
  { apps := fun k => if k = 1 then some { app := some (), id := 1, dispatched := true } else none,
    counter := 1, active := 1, app := some (), windowtitle := none }

/-- Witness for C3: quitting the live dispatched session 1 takes the COM
path, clears the handle and resets the active pointer. -/
theorem quit_spec_witness :
    quit stLive (some 1)
      = Except.ok
          (QuitAction.comQuit,
           { stLive with
             apps := fun k =>
               if k = 1 then some { app := none, id := 1, dispatched := true }
               else stLive.apps k,
             active := -1 }) :=
  quit_spec stLive 1 { app := some (), id := 1, dispatched := true } rfl rfl rfl

/-- The fresh `__init__` state satisfies the registry invariant. -/
lemma regInv_init : RegInv initState :=
  ⟨fun _ => Or.inl rfl, Or.inl rfl, fun _ r h => by simp [initState] at h⟩

/-- `open_dialog` does not move the active pointer. -/
lemma open_dialog_effect_active (st : WinState) (wt : Option String) :
    (open_dialog_effect st wt).active = st.active := by
  unfold open_dialog_effect
  cases h : st.apps st.active.toNat with
  | none => simp [h]
  | some r => by_cases hr : r.app = none <;> simp [h, hr]

/-- `open_dialog` does not touch the id counter. -/
lemma open_dialog_effect_counter (st : WinState) (wt : Option String) :
    (open_dialog_effect st wt).counter = st.counter := by
  unfold open_dialog_effect
  cases h : st.apps st.active.toNat with
  | none => simp [h]
  | some r => by_cases hr : r.app = none <;> simp [h, hr]

/-- `open_dialog` either leaves a registry entry unchanged or replaces an
existing record by the same record with a connected handle. -/
lemma open_dialog_effect_apps (st : WinState) (wt : Option String) (k : Nat) :
    (open_dialog_effect st wt).apps k = st.apps k
    ∨ ∃ r, st.apps k = some r
        ∧ (open_dialog_effect st wt).apps k = some { r with app := some () } := by
  unfold open_dialog_effect
  cases h : st.apps st.active.toNat with
  | none => left; simp [h]
  | some r =>
    by_cases hr : r.app = none
    · by_cases hk : k = st.active.toNat
      · subst hk; right; exact ⟨r, h, by simp [h, hr]⟩
      · left; simp [h, hr, hk]
    · left; simp [h, hr]

/-- `open_dialog` preserves the registry invariant. -/
lemma regInv_open_dialog (st : WinState) (wt : Option String) (h : RegInv st) :
    RegInv (open_dialog_effect st wt) := by
  obtain ⟨hb, ha, hi⟩ := h
  refine ⟨fun k => ?_, ?_, fun k r hkr => ?_⟩
  · rw [open_dialog_effect_counter]
    rcases open_dialog_effect_apps st wt k with heq | ⟨r, hr, heq⟩
    · rw [heq]; exact hb k
    · rw [heq]
      rcases hb k with h0 | h0
      · rw [hr] at h0; cases h0
      · exact Or.inr h0
  · rw [open_dialog_effect_active]
    rcases ha with h0 | ⟨h1, h2⟩
    · exact Or.inl h0
    · refine Or.inr ⟨h1, ?_⟩
      rcases open_dialog_effect_apps st wt st.active.toNat with heq | ⟨r, hr, heq⟩
      · rw [heq]; exact h2
      · rw [heq]; rfl
  · rcases open_dialog_effect_apps st wt k with heq | ⟨r', hr', heq⟩
    · rw [heq] at hkr; exact hi k r hkr
    · rw [heq] at hkr
      injection hkr with h3
      rw [← h3]
      exact hi k r' hr'

/-- Registering a record carrying the fresh id preserves the registry
invariant (the state shape is the `st1` built by `_add_app_instance`). -/
lemma regInv_register_core (st : WinState) (record : AppRecord) (appVal : Option Unit)
    (hid : record.id = st.counter + 1) (h : RegInv st) :
    RegInv { st with
      counter := st.counter + 1,
      app := appVal,
      apps := fun k => if k = st.counter + 1 then some record else st.apps k,
      active := ((st.counter + 1 : Nat) : Int) } := by
  obtain ⟨hb, ha, hi⟩ := h
  refine ⟨fun k => ?_, Or.inr ⟨Int.natCast_nonneg _, ?_⟩, fun k r hkr => ?_⟩
  · by_cases hk : k = st.counter + 1
    · subst hk; exact Or.inr ⟨Nat.succ_pos _, le_refl _⟩
    · rcases hb k with h0 | h0
      · left; simpa [hk] using h0
      · exact Or.inr ⟨h0.1, le_trans h0.2 (Nat.le_succ _)⟩
  · simp [Int.toNat_natCast]
  · by_cases hk : k = st.counter + 1
    · subst hk
      simp at hkr
      rw [← hkr]; exact hid
    · simp only [hk, if_false] at hkr
      exact hi k r hkr

/-- `_add_app_instance` preserves the registry invariant. -/
lemma regInv_add (st : WinState) (a : Option Unit) (d : Bool) (p : Option AppParams)
    (h : RegInv st) : RegInv (add_app_instance st a d p).2 := by
  unfold add_app_instance
  have hcore := fun (record : AppRecord) (hid : record.id = st.counter + 1)
      (appVal : Option Unit) => regInv_register_core st record appVal hid h
  cases d with
  | false =>
    cases p with
    | none => simpa using hcore _ rfl _
    | some q => simpa using hcore _ rfl _
  | true =>
    cases p with
    | none => simpa using regInv_open_dialog _ _ (hcore _ rfl _)
    | some q => simpa using regInv_open_dialog _ _ (hcore _ rfl _)

/-- The post-lookup body of `switch_to_application` preserves the
registry invariant when the moved-pointer state satisfies it. -/
lemma regInv_switch_connect (st : WinState) (i : Nat) (r : AppRecord)
    (h : RegInv { st with active := (i : Int), app := r.app }) :
    RegInv (switch_connect st i r).2.2 := by
  unfold switch_connect
  cases hw : r.windowtitle with
  | none => exact h
  | some t => exact regInv_open_dialog _ _ h

/-- `switch_to_application` preserves the registry invariant (also on its
raising paths, which leave the pointer at a registered id). -/
lemma regInv_switch (st : WinState) (i : Nat) (h : RegInv st) :
    RegInv (switch_to_application st i).2.2 := by
  obtain ⟨hb, ha, hi⟩ := h
  unfold switch_to_application
  by_cases hg : i ≠ 0 ∧ (st.apps i).isSome = true
  · rw [if_pos hg]
    obtain ⟨r, hr⟩ : ∃ r, st.apps i = some r := Option.isSome_iff_exists.mp hg.2
    rw [hr]
    refine regInv_switch_connect st i r ?_
    refine ⟨hb, Or.inr ⟨Int.natCast_nonneg _, ?_⟩, hi⟩
    simp [Int.toNat_natCast, hr]
  · rw [if_neg hg]
    exact ⟨hb, ha, hi⟩

/-- A successful `get_app` returns a record stored in the registry. -/
lemma get_app_ok_inv (st : WinState) (aid : Option Nat) (r : AppRecord)
    (h : get_app st aid = Except.ok r) : ∃ k, st.apps k = some r := by
  cases aid with
  | some i =>
    simp only [get_app] at h
    cases hk : st.apps i with
    | none => rw [hk] at h; simp at h
    | some r' =>
      rw [hk] at h
      simp only [Except.ok.injEq] at h
      exact ⟨i, by rw [hk, h]⟩
  | none =>
    simp only [get_app] at h
    by_cases hact : st.active ≠ -1
    · rw [if_pos hact] at h
      cases hk : st.apps st.active.toNat with
      | none => rw [hk] at h; simp at h
      | some r' =>
        rw [hk] at h
        simp only [Except.ok.injEq] at h
        exact ⟨st.active.toNat, by rw [hk, h]⟩
    · rw [if_neg hact] at h; simp at h

/-- A successful `quit` clears the handle of a stored record (at its own
id key) and resets the active pointer. -/
lemma quit_ok_inv (st : WinState) (aid : Option Nat) (a : QuitAction) (st' : WinState)
    (h : quit st aid = Except.ok (a, st')) :
    ∃ k r, st.apps k = some r ∧
      st' = { st with
        apps := fun j => if j = r.id then some { r with app := none } else st.apps j,
        active := -1 } := by
  unfold quit at h
  cases hg : get_app st aid with
  | error e => rw [hg] at h; simp at h
  | ok r =>
    rw [hg] at h
    dsimp only at h
    unfold quit_finish at h
    cases hr : r.app with
    | none => rw [hr] at h; simp at h
    | some u =>
      rw [hr] at h
      simp only [Except.ok.injEq, Prod.mk.injEq] at h
      obtain ⟨k, hk⟩ := get_app_ok_inv st aid r hg
      exact ⟨k, r, hk, h.2.symm⟩

/-- The `quit` step preserves the registry invariant. -/
lemma regInv_quit (st : WinState) (aid : Option Nat) (h : RegInv st) :
    RegInv (quit_state st aid) := by
  obtain ⟨hb, ha, hi⟩ := h
  unfold quit_state
  cases hq : quit st aid with
  | error e => exact ⟨hb, ha, hi⟩
  | ok pr =>
    obtain ⟨k, r, hk, hst⟩ := quit_ok_inv st aid pr.1 pr.2 (by rw [hq])
    have hrk : r.id = k := hi k r hk
    show RegInv pr.2
    rw [hst]
    refine ⟨fun j => ?_, Or.inl rfl, fun j r' hjr => ?_⟩
    · by_cases hj : j = r.id
      · subst hj; right
        rcases hb k with h0 | h0
        · rw [hk] at h0; cases h0
        · simp only [if_pos rfl]
          rw [hrk]
          exact ⟨by omega, by omega⟩
      · simp only [hj, if_false]
        exact hb j
    · by_cases hj : j = r.id
      · subst hj
        simp at hjr
        subst hjr
        rfl
      · simp only [hj, if_false] at hjr
        exact hi j r' hjr

/-- Every lifecycle step preserves the registry invariant. -/
lemma regInv_step (st : WinState) (op : Op) (h : RegInv st) : RegInv (step st op) := by
  cases op with
  | register a d p => exact regInv_add st a d p h
  | switchTo i => exact regInv_switch st i h
  | quitOp aid => exact regInv_quit st aid h

/-- The registry invariant holds along any fold of lifecycle steps. -/
lemma regInv_foldl : ∀ (ops : List Op) (st : WinState),
    RegInv st → RegInv (ops.foldl step st)
  | [], _, h => h
  | op :: ops, st, h => regInv_foldl ops (step st op) (regInv_step st op h)

/-- The registry invariant holds in every reachable state. -/
lemma regInv_run (ops : List Op) : RegInv (run ops) :=
  regInv_foldl ops initState regInv_init

/-- The id returned by `_add_app_instance` is the incremented counter. -/
lemma add_app_instance_fst (st : WinState) (a : Option Unit) (d : Bool)
    (p : Option AppParams) : (add_app_instance st a d p).1 = st.counter + 1 := rfl

/-- After `_add_app_instance` the active pointer is the new id. -/
lemma add_app_instance_active (st : WinState) (a : Option Unit) (d : Bool)
    (p : Option AppParams) :
    (add_app_instance st a d p).2.active = ((st.counter + 1 : Nat) : Int) := by
  unfold add_app_instance
  cases d with
  | false => cases p <;> rfl
  | true => cases p <;> simp [open_dialog_effect_active]

/-- After `_add_app_instance` the counter is incremented by one. -/
lemma add_app_instance_counter (st : WinState) (a : Option Unit) (d : Bool)
    (p : Option AppParams) :
    (add_app_instance st a d p).2.counter = st.counter + 1 := by
  unfold add_app_instance
  cases d with
  | false => cases p <;> rfl
  | true => cases p <;> simp [open_dialog_effect_counter]

/-- Claim C5 (confirmed): from any reachable state, registering a session
assigns the id `counter + 1`, which is unregistered and strictly greater
than every registered id (never reused, also after `quit`, which deletes
no key and never decrements the counter); the new id becomes the active
session, the counter advances so a following registration gets
`counter + 2`, and in every reachable state the active pointer is either
the `-1` sentinel or a registered id. -/
theorem registry_id_allocation (ops : List Op) (app : Option Unit) (dialog : Bool)
    (params : Option AppParams) (k : Nat) :
    (add_app_instance (run ops) app dialog params).1 = (run ops).counter + 1
    ∧ (run ops).apps ((add_app_instance (run ops) app dialog params).1) = none
    ∧ ((run ops).apps k = none ∨ k < (add_app_instance (run ops) app dialog params).1)
    ∧ (add_app_instance (run ops) app dialog params).2.active
        = (((add_app_instance (run ops) app dialog params).1 : Nat) : Int)
    ∧ (add_app_instance (run ops) app dialog params).2.counter = (run ops).counter + 1
    ∧ (add_app_instance ((add_app_instance (run ops) app dialog params).2) app dialog params).1
        = (run ops).counter + 2
    ∧ ((run ops).active = -1
        ∨ (0 ≤ (run ops).active ∧ ((run ops).apps (run ops).active.toNat).isSome = true)) := by
  obtain ⟨hb, ha, hi⟩ := regInv_run ops
  refine ⟨add_app_instance_fst _ _ _ _, ?_, ?_, ?_, add_app_instance_counter _ _ _ _, ?_, ha⟩
  · rw [add_app_instance_fst]
    rcases hb ((run ops).counter + 1) with h0 | h0
    · exact h0
    · omega
  · rw [add_app_instance_fst]
    rcases hb k with h0 | h0
    · exact Or.inl h0
    · exact Or.inr (by omega)
  · rw [add_app_instance_active, add_app_instance_fst]
  · rw [add_app_instance_fst, add_app_instance_counter]
